import Mathlib

/-!
Verification of the clatd configuration core (`config.c`).

Addresses are modelled as lists of byte values (`List Nat`, each element
intended to be `< 256`): an IPv4 address is a 4-element list, an IPv6
address a 16-element list.  Machine integers are modelled as `Nat`/`Int`
with explicit truncation where the code relies on wraparound; the C code
accumulates checksums in a `uint32_t` that never overflows for the 4/16
byte inputs used here, so plain `Nat` is faithful.
-/

/-- Modelled from the spec: `checksum_add(running, bytes)` accumulates the
ones'-complement sum of a byte range into a wider accumulator
(`ip_checksum_add` of the checksum engine, which is outside this source
file).  The implementation reads the buffer as native-order (little-endian
on all supported targets) 16-bit words, so a word made of consecutive
bytes `b0, b1` contributes `b0 + 256 * b1`, and an odd trailing byte is
added as the low byte of a zero-padded word. -/
def ip_checksum_add (current : Nat) : List Nat → Nat
  | [] => current
  | [b] => current + b
  | b0 :: b1 :: rest => ip_checksum_add (current + (b0 + 256 * b1)) rest

/-- Modelled from the spec: fold a wide ones'-complement accumulator to 16
bits with carry wraparound (`ip_checksum_fold` of the checksum engine,
outside this source file).  `x >> 16` is `x / 65536` and `x & 0xffff` is
`x % 65536`. -/
def ip_checksum_fold (sum : Nat) : Nat :=
  if 65535 < sum then ip_checksum_fold (sum / 65536 + sum % 65536) else sum
termination_by sum
decreasing_by omega

/-- Modelled from the spec: `checksum_adjust(original_field, sum_before,
sum_after)` returns a new 16-bit field value keeping the overall
ones'-complement checksum unchanged when the bytes summarized by
`sum_before` are replaced by those summarized by `sum_after`; the
accumulators are folded to 16 bits before combining (standard RFC 1624
incremental update, `ip_checksum_adjust` of the checksum engine, outside
this source file).  The first argument is a 16-bit field, so the C
complement `~checksum` is `65535 - checksum`, and the end-around-borrow
branch `~(folded_sum - folded_old - 1)` on 16-bit values equals
`folded_old - folded_sum`. -/
def ip_checksum_adjust (checksum old_sum new_sum : Nat) : Nat :=
  let folded_sum := ip_checksum_fold ((65535 - checksum) + new_sum)
  let folded_old := ip_checksum_fold old_sum
  if folded_old < folded_sum then 65535 - (folded_sum - folded_old)
  else folded_old - folded_sum

/-- Embedding of `gen_random_iid` (config.c).  The 8 random bytes produced
by `arc4random_buf` into bytes 8..15 are passed in as `rand`.
`middlebytes` is `(s6_addr[11] << 8) + s6_addr[12]`; the final writes are
`s6_addr[11] = delta >> 8` and `s6_addr[12] = delta & 0xff`. -/
def gen_random_iid (myaddr ipv4_local_subnet plat_subnet rand : List Nat) :
    List Nat :=
  let filled := myaddr.take 8 ++ rand
  let middlebytes := 256 * filled.getD 11 0 + filled.getD 12 0
  let c1 := ip_checksum_add 0 ipv4_local_subnet
  let c2 := ip_checksum_add 0 plat_subnet + ip_checksum_add 0 filled
  let delta := ip_checksum_adjust middlebytes c1 c2
  (filled.set 11 (delta / 256)).set 12 (delta % 256)

/-- The `IN6_IS_ADDR_UNSPECIFIED` macro: all 16 bytes of the address are
zero. -/
def IN6_IS_ADDR_UNSPECIFIED (a : List Nat) : Bool := a.all (fun b => b == 0)

/-- Embedding of `config_generate_local_ipv6_subnet` (config.c): when the
configured `ipv6_host_id` is the unspecified address, synthesize a random
IID via `gen_random_iid`; otherwise copy words 2 and 3 of `s6_addr32`
(bytes 8..15) of `ipv6_host_id` over the low 64 bits of the interface
address. -/
def config_generate_local_ipv6_subnet (ipv6_host_id ipv4_local_subnet
    plat_subnet interface_ip rand : List Nat) : List Nat :=
  if IN6_IS_ADDR_UNSPECIFIED ipv6_host_id then
    gen_random_iid interface_ip ipv4_local_subnet plat_subnet rand
  else
    interface_ip.take 8 ++ ipv6_host_id.drop 8

/-- The backoff update in the `dns64_detection` loop body (config.c):
`backoff_sleep *= 2; if (backoff_sleep >= 120) backoff_sleep = 120;`. -/
def next_backoff (backoff_sleep : Nat) : Nat :=
  if 120 ≤ 2 * backoff_sleep then 120 else 2 * backoff_sleep

/-- The value of `backoff_sleep` at the start of iteration `n` of the
`dns64_detection` loop (`backoff_sleep = 1` before the first iteration). -/
def backoff_at : Nat → Nat
  | 0 => 1
  | n + 1 => next_backoff (backoff_at n)

/-- Embedding of the `dns64_detection` loop (config.c) as a fuelled step
function on the state `(attempt, backoff_sleep)`.  `outcome n` models the
result of the n-th call of the external resolver `plat_prefix`: `some pfx`
when it returns a positive status having written `pfx`, `none` on failure.
The first component is the value copied into `plat_subnet` on the success
return (`none` when the fuel runs out before any success); the second is
the list of sleep durations performed, in order. -/
def dns64_detection (outcome : Nat → Option (List Nat)) :
    Nat → Nat → Nat → Option (List Nat) × List Nat
  | _, _, 0 => (none, [])
  | attempt, backoff_sleep, fuel + 1 =>
    match outcome attempt with
    | some pfx => (some pfx, [])
    | none =>
      let r := dns64_detection outcome (attempt + 1) (next_backoff backoff_sleep) fuel
      (r.1, backoff_sleep :: r.2)

/-- Modelled from the spec: the external config-tree lookup `config_str`
(cutils, outside this source file): return the value bound to `item_name`
among the children of `root`, or `defaultvar` (which may itself be absent)
when no child matches.  The parsed tree is modelled as an association list
of key/value pairs. -/
def config_str (root : List (String × String)) (item_name : String)
    (defaultvar : Option String) : Option String :=
  match root.lookup item_name with
  | some v => some v
  | none => defaultvar

/-- Embedding of `config_item_str` (config.c): locate the item and return
an owned copy of the string (`strdup` is the identity in this model). -/
def config_item_str (root : List (String × String)) (item_name : String)
    (defaultvar : Option String) : Option String :=
  config_str root item_name defaultvar

/-- The C `isspace` predicate used by `strtol` for leading whitespace. -/
def c_isspace (c : Char) : Bool :=
  c == ' ' || c == '\t' || c == '\n' || c == '\x0b' || c == '\x0c' || c == '\r'

/-- Modelled from the spec: the digit-consuming phase of C `strtol` in base
10: accumulate the numeric value of a maximal run of decimal digits and
return it with the unconsumed remainder of the string. -/
def strtol_digits (acc : Nat) : List Char → Nat × List Char
  | [] => (acc, [])
  | c :: rest =>
    if c.isDigit then strtol_digits (acc * 10 + (c.toNat - 48)) rest
    else (acc, c :: rest)

/-- Modelled from the spec: C `strtol(tmp, &endptr, 10)` (libc, outside
this source file): skip leading whitespace, then an optional sign, then
base-10 digits.  Returns the parsed value together with the number of
characters consumed (the offset of `endptr` from the start); when no
digits are found, no conversion is performed and `endptr` is left at the
start of the string, i.e. 0 characters are consumed. -/
def strtol10 (s : List Char) : Int × Nat :=
  let t := s.dropWhile c_isspace
  let signed : Bool × List Char :=
    match t with
    | '-' :: rest => (true, rest)
    | '+' :: rest => (false, rest)
    | _ => (false, t)
  match signed.2 with
  | c :: rest =>
    if c.isDigit then
      let p := strtol_digits 0 (c :: rest)
      ((if signed.1 then -(p.1 : Int) else (p.1 : Int)), s.length - p.2.length)
    else ((0 : Int), 0)
  | [] => ((0 : Int), 0)

/-- Embedding of `config_item_int16_t` (config.c), with the memory cell
`*ret_val_ptr` threaded explicitly: `ret_val` is the value of the cell
before the call and the second component its value after the call.  The
checks mirror the source: `endptr == tmp || *tmp == 0` is `consumed = 0 ∨
s = []`, `*endptr != 0` is `consumed < s.length`, and the bounds check is
against `INT16_MAX`/`INT16_MIN`.  The C `errno > 0` branch fires only when
`strtol` reports `ERANGE`, i.e. when the value exceeds the `long` range;
every such string also fails the 16-bit bounds check here, so the
success/failure behaviour is unchanged. -/
def config_item_int16_t (root : List (String × String)) (item_name : String)
    (defaultvar : Option String) (ret_val : Int) : Option Int × Int :=
  match config_str root item_name defaultvar with
  | none => (none, ret_val)
  | some tmp =>
    let s := tmp.toList
    let conf_int := (strtol10 s).1
    let consumed := (strtol10 s).2
    if consumed = 0 ∨ s = [] then (none, ret_val)
    else if consumed < s.length then (none, ret_val)
    else if conf_int > 32767 ∨ conf_int < -32768 then (none, ret_val)
    else (some conf_int, conf_int)

/-- Embedding of `config_item_ip` (config.c); `pton4` models the external
`inet_pton(AF_INET, ...)` conversion, `none` standing for a non-positive
status. -/
def config_item_ip (pton4 : String → Option (List Nat))
    (root : List (String × String)) (item_name : String)
    (defaultvar : Option String) : Option (List Nat) :=
  match config_str root item_name defaultvar with
  | none => none
  | some tmp => pton4 tmp

/-- Embedding of `config_item_ip6` (config.c); `pton6` models the external
`inet_pton(AF_INET6, ...)` conversion, `none` standing for a non-positive
status. -/
def config_item_ip6 (pton6 : String → Option (List Nat))
    (root : List (String × String)) (item_name : String)
    (defaultvar : Option String) : Option (List Nat) :=
  match config_str root item_name defaultvar with
  | none => none
  | some tmp => pton6 tmp

/-- Modelled from the spec: the fixed private-use default for
`ipv4_local_subnet` (`DEFAULT_IPV4_LOCAL_SUBNET`, defined outside this
source file). -/
def DEFAULT_IPV4_LOCAL_SUBNET : String := "192.0.0.4"

/-- Modelled from the spec: the fixed well-known DNS64 discovery hostname
(`DEFAULT_DNS64_DETECTION_HOSTNAME`, defined outside this source file). -/
def DEFAULT_DNS64_DETECTION_HOSTNAME : String := "ipv4only.arpa"

/-- The fields of `struct clat_config` (config.h) read or written by this
file's functions. -/
structure ClatConfig where
  default_pdp_interface : String
  mtu : Int
  ipv4mtu : Int
  ipv6_local_subnet : List Nat
  ipv4_local_subnet : List Nat
  ipv6_host_id : List Nat
  plat_subnet : List Nat
  plat_from_dns64_hostname : Option String
deriving DecidableEq

/-- `Global_Clatd_Config` after `memset(&Global_Clatd_Config, 0, ...)`. -/
def zeroConfig : ClatConfig where
  default_pdp_interface := ""
  mtu := 0
  ipv4mtu := 0
  ipv6_local_subnet := List.replicate 16 0
  ipv4_local_subnet := List.replicate 4 0
  ipv6_host_id := List.replicate 16 0
  plat_subnet := List.replicate 16 0
  plat_from_dns64_hostname := none

/-- Embedding of `subnet_from_interface` (config.c).  `iface_ip` models
the result of the external `getinterface_ip(interface, AF_INET6)` and
`rand` the random bytes consumed if `gen_random_iid` runs.  Returns the
success flag together with the updated configuration. -/
def subnet_from_interface (pton6 : String → Option (List Nat))
    (root : List (String × String)) (iface_ip : Option (List Nat))
    (rand : List Nat) (cfg : ClatConfig) : Bool × ClatConfig :=
  match config_item_ip6 pton6 root "ipv6_host_id" (some "::") with
  | none => (false, cfg)
  | some hid =>
    let cfg1 := { cfg with ipv6_host_id := hid }
    match iface_ip with
    | none => (false, cfg1)
    | some ip6 =>
      let cfg2 := { cfg1 with ipv6_local_subnet := ip6 }
      let newaddr := config_generate_local_ipv6_subnet cfg2.ipv6_host_id
        cfg2.ipv4_local_subnet cfg2.plat_subnet cfg2.ipv6_local_subnet rand
      (true, { cfg2 with ipv6_local_subnet := newaddr })

/-- The observable outcome of `read_config`: the returned flag, the final
state of `Global_Clatd_Config`, and whether `dns64_detection` was entered
(i.e. whether any DNS64 query was issued). -/
structure ReadConfigResult where
  ret : Bool
  config : ClatConfig
  dns64_queried : Bool
deriving DecidableEq

/-- The tail of `read_config` (config.c) after the PLAT-prefix block: the
`subnet_from_interface` call on the uplink interface followed by the
success return, with failure jumping to the `failed` label.  `queried`
records whether `dns64_detection` was entered earlier. -/
def read_config_finish (pton6 : String → Option (List Nat))
    (tree : List (String × String)) (iface_ip : Option (List Nat))
    (rand : List Nat) (cfg : ClatConfig) (queried : Bool) : ReadConfigResult :=
  match subnet_from_interface pton6 tree iface_ip rand cfg with
  | (false, cfg6) => ⟨false, cfg6, queried⟩
  | (true, cfg6) => ⟨true, cfg6, queried⟩

/-- Embedding of `read_config` (config.c).  External collaborators are
passed as parameters: `tree` holds the children of the root node after
`config_load_file` (empty when the file is missing, unreadable or parses
to an empty tree, which the source detects as `root->first_child == NULL`),
`pton4`/`pton6` model `inet_pton` for each address family, `dns64_pfx` is
the prefix that `dns64_detection` eventually obtains when it is entered
(the loop has no failure terminal state), `iface_ip` models
`getinterface_ip`, and `rand` the random bytes.  The `config_node`
out-of-memory path is not modelled. -/
def read_config (tree : List (String × String)) (uplink_interface : String)
    (plat_prefix_arg : Option String)
    (pton4 pton6 : String → Option (List Nat)) (dns64_pfx : List Nat)
    (iface_ip : Option (List Nat)) (rand : List Nat) : ReadConfigResult :=
  let cfg0 := zeroConfig
  if tree.isEmpty then ⟨false, cfg0, false⟩
  else
    let cfg1 := { cfg0 with default_pdp_interface := uplink_interface }
    match config_item_int16_t tree "mtu" (some "-1") cfg1.mtu with
    | (none, v) => ⟨false, { cfg1 with mtu := v }, false⟩
    | (some _, v) =>
      let cfg2 := { cfg1 with mtu := v }
      match config_item_int16_t tree "ipv4mtu" (some "-1") cfg2.ipv4mtu with
      | (none, v2) => ⟨false, { cfg2 with ipv4mtu := v2 }, false⟩
      | (some _, v2) =>
        let cfg3 := { cfg2 with ipv4mtu := v2 }
        match config_item_ip pton4 tree "ipv4_local_subnet"
            (some DEFAULT_IPV4_LOCAL_SUBNET) with
        | none => ⟨false, cfg3, false⟩
        | some v4 =>
          let cfg4 := { cfg3 with ipv4_local_subnet := v4 }
          match plat_prefix_arg with
          | some pp =>
            -- plat subnet is coming from the command line
            match pton6 pp with
            | none => ⟨false, cfg4, false⟩
            | some ps =>
              read_config_finish pton6 tree iface_ip rand
                { cfg4 with plat_subnet := ps } false
          | none =>
            let tmp := config_item_str tree "plat_from_dns64" (some "yes")
            if tmp = none ∨ tmp = some "no" then
              match config_item_ip6 pton6 tree "plat_subnet" none with
              | none => ⟨false, cfg4, false⟩
              | some ps =>
                read_config_finish pton6 tree iface_ip rand
                  { cfg4 with plat_subnet := ps } false
            else
              match config_item_str tree "plat_from_dns64_hostname"
                  (some DEFAULT_DNS64_DETECTION_HOSTNAME) with
              | none => ⟨false, cfg4, false⟩
              | some hn =>
                read_config_finish pton6 tree iface_ip rand
                  { cfg4 with
                    plat_from_dns64_hostname := some hn
                    plat_subnet := dns64_pfx } true

theorem ip_checksum_fold_le (x : Nat) : ip_checksum_fold x ≤ 65535 := by
  induction x using ip_checksum_fold.induct with
  | case1 x h ih =>
    rw [ip_checksum_fold, if_pos h]
    exact ih
  | case2 x h =>
    rw [ip_checksum_fold, if_neg h]
    omega

theorem ip_checksum_fold_mod (x : Nat) :
    ip_checksum_fold x % 65535 = x % 65535 := by
  induction x using ip_checksum_fold.induct with
  | case1 x h ih =>
    rw [ip_checksum_fold, if_pos h]
    omega
  | case2 x h =>
    rw [ip_checksum_fold, if_neg h]

/-- Key congruence for the RFC 1624 adjustment: the returned field value
`d` satisfies `d + new_sum ≡ old_sum + checksum (mod 65535)`. -/
theorem ip_checksum_adjust_cong (m old_sum new_sum : Nat) (hm : m ≤ 65535) :
    (ip_checksum_adjust m old_sum new_sum + new_sum) % 65535 =
      (old_sum + m) % 65535 := by
  simp only [ip_checksum_adjust]
  have h1 : ip_checksum_fold ((65535 - m) + new_sum) ≤ 65535 :=
    ip_checksum_fold_le _
  have h2 : ip_checksum_fold old_sum ≤ 65535 := ip_checksum_fold_le _
  have h3 : ip_checksum_fold ((65535 - m) + new_sum) % 65535 =
      ((65535 - m) + new_sum) % 65535 := ip_checksum_fold_mod _
  have h4 : ip_checksum_fold old_sum % 65535 = old_sum % 65535 :=
    ip_checksum_fold_mod _
  split <;> omega

theorem exists_eight (l : List Nat) (h : l.length = 8) :
    ∃ b0 b1 b2 b3 b4 b5 b6 b7, l = [b0, b1, b2, b3, b4, b5, b6, b7] := by
  rcases l with _ | ⟨b0, l⟩
  · simp at h
  rcases l with _ | ⟨b1, l⟩
  · simp at h
  rcases l with _ | ⟨b2, l⟩
  · simp at h
  rcases l with _ | ⟨b3, l⟩
  · simp at h
  rcases l with _ | ⟨b4, l⟩
  · simp at h
  rcases l with _ | ⟨b5, l⟩
  · simp at h
  rcases l with _ | ⟨b6, l⟩
  · simp at h
  rcases l with _ | ⟨b7, l⟩
  · simp at h
  rcases l with _ | ⟨b8, l⟩
  · exact ⟨b0, b1, b2, b3, b4, b5, b6, b7, rfl⟩
  · simp only [List.length_cons] at h
    omega

/-- Claim C1: for every local IPv4 subnet `A`, PLAT prefix `P` and every
outcome of the 8 random bytes, the local IPv6 address `V` produced by
`gen_random_iid` satisfies `checksum(A) = checksum(P) + checksum(V)` in
16-bit ones'-complement arithmetic (congruence modulo 65535). -/
theorem gen_random_iid_checksum_neutral
    (myaddr ipv4_local_subnet plat_subnet rand : List Nat)
    (hlen : myaddr.length = 16) (hr : rand.length = 8)
    (hb : ∀ b ∈ rand, b < 256) :
    ip_checksum_add 0 ipv4_local_subnet % 65535 =
      (ip_checksum_add 0 plat_subnet +
        ip_checksum_add 0
          (gen_random_iid myaddr ipv4_local_subnet plat_subnet rand)) % 65535 := by
  obtain ⟨r0, r1, r2, r3, r4, r5, r6, r7, rfl⟩ := exists_eight rand hr
  have ht : (myaddr.take 8).length = 8 := by simp [hlen]
  obtain ⟨m0, m1, m2, m3, m4, m5, m6, m7, ht8⟩ := exists_eight _ ht
  have hr3 : r3 < 256 := hb r3 (by simp)
  have hr4 : r4 < 256 := hb r4 (by simp)
  simp only [gen_random_iid, ht8, List.cons_append, List.nil_append]
  have hg1 : ([m0, m1, m2, m3, m4, m5, m6, m7,
      r0, r1, r2, r3, r4, r5, r6, r7] : List Nat).getD 11 0 = r3 := rfl
  have hg2 : ([m0, m1, m2, m3, m4, m5, m6, m7,
      r0, r1, r2, r3, r4, r5, r6, r7] : List Nat).getD 12 0 = r4 := rfl
  rw [hg1, hg2]
  set d := ip_checksum_adjust (256 * r3 + r4) (ip_checksum_add 0 ipv4_local_subnet)
      (ip_checksum_add 0 plat_subnet +
        ip_checksum_add 0 [m0, m1, m2, m3, m4, m5, m6, m7,
          r0, r1, r2, r3, r4, r5, r6, r7]) with hd
  have hcong := ip_checksum_adjust_cong (256 * r3 + r4)
      (ip_checksum_add 0 ipv4_local_subnet)
      (ip_checksum_add 0 plat_subnet +
        ip_checksum_add 0 [m0, m1, m2, m3, m4, m5, m6, m7,
          r0, r1, r2, r3, r4, r5, r6, r7]) (by omega)
  rw [← hd] at hcong
  have hst : (([m0, m1, m2, m3, m4, m5, m6, m7,
      r0, r1, r2, r3, r4, r5, r6, r7] : List Nat).set 11 (d / 256)).set 12 (d % 256) =
      [m0, m1, m2, m3, m4, m5, m6, m7,
        r0, r1, r2, d / 256, d % 256, r5, r6, r7] := rfl
  rw [hst]
  simp only [ip_checksum_add] at hcong ⊢
  omega

theorem gen_random_iid_checksum_neutral_witness :
    ip_checksum_add 0 [192, 0, 0, 4] % 65535 =
      (ip_checksum_add 0 [0, 100, 255, 155, 0, 0, 0, 0, 0, 0, 0, 0, 0, 0, 0, 0] +
        ip_checksum_add 0 (gen_random_iid
          [254, 128, 0, 0, 0, 0, 0, 0, 0, 0, 0, 0, 0, 0, 0, 0]
          [192, 0, 0, 4]
          [0, 100, 255, 155, 0, 0, 0, 0, 0, 0, 0, 0, 0, 0, 0, 0]
          [17, 34, 51, 68, 85, 102, 119, 136])) % 65535 :=
  gen_random_iid_checksum_neutral _ _ _ _ rfl rfl (by decide)

theorem backoff_at_closed (n : Nat) :
    backoff_at n = if n < 7 then 2 ^ n else 120 := by
  induction n with
  | zero => rfl
  | succ n ih =>
    show next_backoff (backoff_at n) = _
    rw [ih]
    rcases Nat.lt_or_ge n 7 with h7 | h7
    · rw [if_pos h7]
      interval_cases n <;> decide
    · rw [if_neg (by omega : ¬ n < 7), if_neg (by omega : ¬ n + 1 < 7)]
      decide

theorem range_map_shift (f : Nat → Nat) (k fuel : Nat) :
    (List.range (fuel + 1)).map (fun i => f (k + i)) =
      f k :: (List.range fuel).map (fun i => f (k + 1 + i)) := by
  rw [List.range_succ_eq_map]
  simp only [List.map_cons, Nat.add_zero, List.map_map]
  refine congrArg (List.cons (f k)) ?_
  apply List.map_congr_left
  intro a _
  simp only [Function.comp_apply]
  exact congrArg f (by omega)

theorem dns64_detection_sleeps_eq (outcome : Nat → Option (List Nat))
    (hfail : ∀ n, outcome n = none) :
    ∀ fuel attempt k,
      (dns64_detection outcome attempt (backoff_at k) fuel).2 =
        (List.range fuel).map (fun i => backoff_at (k + i)) := by
  intro fuel
  induction fuel with
  | zero => intro a k; rfl
  | succ fuel ih =>
    intro a k
    simp only [dns64_detection, hfail]
    have hnb : next_backoff (backoff_at k) = backoff_at (k + 1) := rfl
    rw [hnb, ih (a + 1) (k + 1), range_map_shift]

theorem dns64_detection_none (outcome : Nat → Option (List Nat))
    (hfail : ∀ n, outcome n = none) :
    ∀ fuel attempt b, (dns64_detection outcome attempt b fuel).1 = none := by
  intro fuel
  induction fuel with
  | zero => intro a b; rfl
  | succ fuel ih =>
    intro a b
    simp only [dns64_detection, hfail]
    exact ih (a + 1) (next_backoff b)

theorem dns64_detection_some (outcome : Nat → Option (List Nat)) :
    ∀ fuel attempt b p, (dns64_detection outcome attempt b fuel).1 = some p →
      ∃ n, outcome n = some p := by
  intro fuel
  induction fuel with
  | zero =>
    intro a b p h
    exact absurd h (by simp [dns64_detection])
  | succ fuel ih =>
    intro a b p h
    cases ho : outcome a with
    | some q =>
      simp only [dns64_detection, ho] at h
      injection h with h
      exact ⟨a, by rw [ho, h]⟩
    | none =>
      simp only [dns64_detection, ho] at h
      exact ih (a + 1) (next_backoff b) p h

theorem dns64_detection_first_success (outcome : Nat → Option (List Nat))
    (p : List Nat) :
    ∀ n attempt b fuel, n < fuel →
      (∀ k, k < n → outcome (attempt + k) = none) →
      outcome (attempt + n) = some p →
      (dns64_detection outcome attempt b fuel).1 = some p := by
  intro n
  induction n with
  | zero =>
    intro a b fuel hf _ hs
    cases fuel with
    | zero => omega
    | succ fuel =>
      rw [Nat.add_zero] at hs
      simp only [dns64_detection, hs]
  | succ n ih =>
    intro a b fuel hf hk hs
    cases fuel with
    | zero => omega
    | succ fuel =>
      have h0 : outcome a = none := by simpa using hk 0 (by omega)
      simp only [dns64_detection, h0]
      apply ih (a + 1) (next_backoff b) fuel (by omega)
      · intro k hkn
        rw [show a + 1 + k = a + (k + 1) by omega]
        exact hk (k + 1) (by omega)
      · rw [show a + 1 + n = a + (n + 1) by omega]
        exact hs

/-- Claim C2: in a run of the `dns64_detection` loop in which the resolver
keeps failing, the sleep durations are exactly `backoff_at 0, backoff_at 1,
...`, i.e. 1, 2, 4, 8, 16, 32, 64, 120, 120, ... seconds; the per-iteration
sleep never decreases and never exceeds 120 seconds. -/
theorem dns64_detection_backoff_sequence (outcome : Nat → Option (List Nat))
    (hfail : ∀ n, outcome n = none) (fuel : Nat) :
    (dns64_detection outcome 0 1 fuel).2 = (List.range fuel).map backoff_at ∧
    (∀ n, backoff_at n = if n < 7 then 2 ^ n else 120) ∧
    (∀ n, backoff_at n ≤ backoff_at (n + 1)) ∧
    (∀ n, backoff_at n ≤ 120) := by
  refine ⟨?_, backoff_at_closed, ?_, ?_⟩
  · have h := dns64_detection_sleeps_eq outcome hfail fuel 0 0
    simpa [backoff_at] using h
  · intro n
    rw [backoff_at_closed n, backoff_at_closed (n + 1)]
    rcases Nat.lt_or_ge n 7 with h | h
    · interval_cases n <;> decide
    · rw [if_neg (by omega : ¬ n < 7), if_neg (by omega : ¬ n + 1 < 7)]
  · intro n
    rw [backoff_at_closed n]
    rcases Nat.lt_or_ge n 7 with h | h
    · rw [if_pos h]
      interval_cases n <;> decide
    · rw [if_neg (by omega : ¬ n < 7)]

theorem dns64_detection_backoff_sequence_witness :
    (dns64_detection (fun _ => none) 0 1 9).2 = (List.range 9).map backoff_at ∧
    (∀ n, backoff_at n = if n < 7 then 2 ^ n else 120) ∧
    (∀ n, backoff_at n ≤ backoff_at (n + 1)) ∧
    (∀ n, backoff_at n ≤ 120) :=
  dns64_detection_backoff_sequence (fun _ => none) (fun _ => rfl) 9

/-- Claim C6: the `dns64_detection` loop has no failure terminal state:
whatever the fuel, it returns a prefix only when some resolver call
succeeded; when the first success is at attempt `n`, the run returns
exactly the prefix that call produced (which is what gets copied into
`plat_subnet`); and on a trace with no success it never terminates (it
returns nothing for every amount of fuel). -/
theorem dns64_detection_no_failure_terminal
    (outcome : Nat → Option (List Nat)) :
    (∀ attempt b fuel p, (dns64_detection outcome attempt b fuel).1 = some p →
      ∃ n, outcome n = some p) ∧
    ((∀ n, outcome n = none) →
      ∀ attempt b fuel, (dns64_detection outcome attempt b fuel).1 = none) ∧
    (∀ n p fuel, (∀ k, k < n → outcome k = none) → outcome n = some p →
      n < fuel → (dns64_detection outcome 0 1 fuel).1 = some p) := by
  refine ⟨?_, ?_, ?_⟩
  · intro a b fuel p h
    exact dns64_detection_some outcome fuel a b p h
  · intro hfail a b fuel
    exact dns64_detection_none outcome hfail fuel a b
  · intro n p fuel hk hs hf
    apply dns64_detection_first_success outcome p n 0 1 fuel hf
    · intro k hkn
      simpa using hk k hkn
    · simpa using hs

theorem dns64_detection_no_failure_terminal_witness :
    (∀ attempt b fuel p,
      (dns64_detection (fun n => if n = 2 then some [7] else none)
        attempt b fuel).1 = some p →
      ∃ n, (fun n => if n = 2 then some [7] else none) n = some p) ∧
    ((∀ n, (fun n => if n = 2 then some [7] else none) n = none) →
      ∀ attempt b fuel,
        (dns64_detection (fun n => if n = 2 then some [7] else none)
          attempt b fuel).1 = none) ∧
    (∀ n p fuel,
      (∀ k, k < n → (fun n => if n = 2 then some [7] else none) k = none) →
      (fun n => if n = 2 then some [7] else none) n = some p → n < fuel →
      (dns64_detection (fun n => if n = 2 then some [7] else none)
        0 1 fuel).1 = some p) :=
  dns64_detection_no_failure_terminal (fun n => if n = 2 then some [7] else none)

/-- Claim C5: when the configured `ipv6_host_id` is not the unspecified
address, `config_generate_local_ipv6_subnet` copies exactly the low 64
bits of `ipv6_host_id` verbatim into the low 64 bits of the interface
address, and this path performs no random generation and no checksum
adjustment: the result does not depend on the random bytes, the local
IPv4 subnet or the PLAT prefix. -/
theorem config_generate_local_ipv6_subnet_admin_id
    (ipv6_host_id ipv4_local_subnet plat_subnet interface_ip rand
      rand2 ipv4b platb : List Nat)
    (hip : interface_ip.length = 16)
    (h : IN6_IS_ADDR_UNSPECIFIED ipv6_host_id = false) :
    config_generate_local_ipv6_subnet ipv6_host_id ipv4_local_subnet
        plat_subnet interface_ip rand =
      interface_ip.take 8 ++ ipv6_host_id.drop 8 ∧
    (config_generate_local_ipv6_subnet ipv6_host_id ipv4_local_subnet
        plat_subnet interface_ip rand).drop 8 = ipv6_host_id.drop 8 ∧
    config_generate_local_ipv6_subnet ipv6_host_id ipv4_local_subnet
        plat_subnet interface_ip rand =
      config_generate_local_ipv6_subnet ipv6_host_id ipv4b platb
        interface_ip rand2 := by
  have hu : config_generate_local_ipv6_subnet ipv6_host_id ipv4_local_subnet
      plat_subnet interface_ip rand =
      interface_ip.take 8 ++ ipv6_host_id.drop 8 := by
    simp [config_generate_local_ipv6_subnet, h]
  refine ⟨hu, ?_, ?_⟩
  · rw [hu]
    have h8 : (interface_ip.take 8).length = 8 := by simp [hip]
    rw [List.drop_left' h8]
  · rw [hu]
    simp [config_generate_local_ipv6_subnet, h]

theorem config_generate_local_ipv6_subnet_admin_id_witness :
    config_generate_local_ipv6_subnet
        [32, 1, 13, 184, 0, 0, 0, 0, 0, 0, 0, 0, 18, 52, 86, 120]
        [192, 0, 0, 4]
        [0, 100, 255, 155, 0, 0, 0, 0, 0, 0, 0, 0, 0, 0, 0, 0]
        [254, 128, 0, 0, 0, 0, 0, 0, 1, 2, 3, 4, 5, 6, 7, 8]
        [9, 10, 11, 12, 13, 14, 15, 16] =
      ([254, 128, 0, 0, 0, 0, 0, 0, 1, 2, 3, 4, 5, 6, 7, 8] :
          List Nat).take 8 ++
        ([32, 1, 13, 184, 0, 0, 0, 0, 0, 0, 0, 0, 18, 52, 86, 120] :
          List Nat).drop 8 ∧
    (config_generate_local_ipv6_subnet
        [32, 1, 13, 184, 0, 0, 0, 0, 0, 0, 0, 0, 18, 52, 86, 120]
        [192, 0, 0, 4]
        [0, 100, 255, 155, 0, 0, 0, 0, 0, 0, 0, 0, 0, 0, 0, 0]
        [254, 128, 0, 0, 0, 0, 0, 0, 1, 2, 3, 4, 5, 6, 7, 8]
        [9, 10, 11, 12, 13, 14, 15, 16]).drop 8 =
      ([32, 1, 13, 184, 0, 0, 0, 0, 0, 0, 0, 0, 18, 52, 86, 120] :
        List Nat).drop 8 ∧
    config_generate_local_ipv6_subnet
        [32, 1, 13, 184, 0, 0, 0, 0, 0, 0, 0, 0, 18, 52, 86, 120]
        [192, 0, 0, 4]
        [0, 100, 255, 155, 0, 0, 0, 0, 0, 0, 0, 0, 0, 0, 0, 0]
        [254, 128, 0, 0, 0, 0, 0, 0, 1, 2, 3, 4, 5, 6, 7, 8]
        [9, 10, 11, 12, 13, 14, 15, 16] =
      config_generate_local_ipv6_subnet
        [32, 1, 13, 184, 0, 0, 0, 0, 0, 0, 0, 0, 18, 52, 86, 120]
        [10, 0, 0, 1]
        [0, 0, 0, 0, 0, 0, 0, 0, 0, 0, 0, 0, 0, 0, 0, 0]
        [254, 128, 0, 0, 0, 0, 0, 0, 1, 2, 3, 4, 5, 6, 7, 8]
        [99, 98, 97, 96, 95, 94, 93, 92] :=
  config_generate_local_ipv6_subnet_admin_id _ _ _ _ _ _ _ _ rfl (by decide)

/-- Claim C8: for every interface-discovered address, both paths of
`config_generate_local_ipv6_subnet` leave bytes 0 through 7 (the high 64
bits) unchanged, and in the random path the checksum adjustment writes
exactly bytes 11 and 12 of the 16-byte address: every other byte of the
low 64 bits is exactly the random byte generated for it. -/
theorem config_generate_local_ipv6_subnet_frame
    (ipv6_host_id ipv4_local_subnet plat_subnet interface_ip rand : List Nat)
    (hip : interface_ip.length = 16) (hrand : rand.length = 8) :
    (config_generate_local_ipv6_subnet ipv6_host_id ipv4_local_subnet
        plat_subnet interface_ip rand).take 8 = interface_ip.take 8 ∧
    (gen_random_iid interface_ip ipv4_local_subnet plat_subnet rand).take 8 =
      interface_ip.take 8 ∧
    (∀ i, 8 ≤ i → i ≠ 11 → i ≠ 12 →
      (gen_random_iid interface_ip ipv4_local_subnet plat_subnet
          rand).getD i 0 =
        rand.getD (i - 8) 0) := by
  obtain ⟨r0, r1, r2, r3, r4, r5, r6, r7, hre⟩ := exists_eight rand hrand
  subst hre
  have ht : (interface_ip.take 8).length = 8 := by simp [hip]
  obtain ⟨m0, m1, m2, m3, m4, m5, m6, m7, ht8⟩ := exists_eight _ ht
  have hxy : gen_random_iid interface_ip ipv4_local_subnet plat_subnet
      [r0, r1, r2, r3, r4, r5, r6, r7] =
      [m0, m1, m2, m3, m4, m5, m6, m7, r0, r1, r2,
        ip_checksum_adjust (256 * r3 + r4) (ip_checksum_add 0 ipv4_local_subnet)
          (ip_checksum_add 0 plat_subnet +
            ip_checksum_add 0 [m0, m1, m2, m3, m4, m5, m6, m7,
              r0, r1, r2, r3, r4, r5, r6, r7]) / 256,
        ip_checksum_adjust (256 * r3 + r4) (ip_checksum_add 0 ipv4_local_subnet)
          (ip_checksum_add 0 plat_subnet +
            ip_checksum_add 0 [m0, m1, m2, m3, m4, m5, m6, m7,
              r0, r1, r2, r3, r4, r5, r6, r7]) % 256,
        r5, r6, r7] := by
    simp only [gen_random_iid, ht8, List.cons_append, List.nil_append]
    rfl
  have htk : (gen_random_iid interface_ip ipv4_local_subnet plat_subnet
      [r0, r1, r2, r3, r4, r5, r6, r7]).take 8 = interface_ip.take 8 := by
    rw [hxy, ht8]
    rfl
  refine ⟨?_, htk, ?_⟩
  · by_cases hu : IN6_IS_ADDR_UNSPECIFIED ipv6_host_id = true
    · simp only [config_generate_local_ipv6_subnet, if_pos hu]
      exact htk
    · simp only [config_generate_local_ipv6_subnet, if_neg hu]
      rw [ht8]
      rfl
  · intro i h8i h11 h12
    rw [hxy]
    rcases i with _|_|_|_|_|_|_|_|_|_|_|_|_|_|_|_|i
    · omega
    · omega
    · omega
    · omega
    · omega
    · omega
    · omega
    · omega
    · rfl
    · rfl
    · rfl
    · omega
    · omega
    · rfl
    · rfl
    · rfl
    · rw [List.getD_eq_default _ _
          (by simp only [List.length_cons, List.length_nil]; omega),
        List.getD_eq_default _ _
          (by simp only [List.length_cons, List.length_nil]; omega)]

theorem config_generate_local_ipv6_subnet_frame_witness :
    (config_generate_local_ipv6_subnet
        [0, 0, 0, 0, 0, 0, 0, 0, 0, 0, 0, 0, 0, 0, 0, 0]
        [192, 0, 0, 4]
        [0, 100, 255, 155, 0, 0, 0, 0, 0, 0, 0, 0, 0, 0, 0, 0]
        [254, 128, 0, 0, 0, 0, 0, 0, 0, 0, 0, 0, 0, 0, 0, 0]
        [1, 2, 3, 4, 5, 6, 7, 8]).take 8 =
      ([254, 128, 0, 0, 0, 0, 0, 0, 0, 0, 0, 0, 0, 0, 0, 0] :
        List Nat).take 8 ∧
    (gen_random_iid [254, 128, 0, 0, 0, 0, 0, 0, 0, 0, 0, 0, 0, 0, 0, 0]
        [192, 0, 0, 4]
        [0, 100, 255, 155, 0, 0, 0, 0, 0, 0, 0, 0, 0, 0, 0, 0]
        [1, 2, 3, 4, 5, 6, 7, 8]).take 8 =
      ([254, 128, 0, 0, 0, 0, 0, 0, 0, 0, 0, 0, 0, 0, 0, 0] :
        List Nat).take 8 ∧
    (∀ i, 8 ≤ i → i ≠ 11 → i ≠ 12 →
      (gen_random_iid [254, 128, 0, 0, 0, 0, 0, 0, 0, 0, 0, 0, 0, 0, 0, 0]
          [192, 0, 0, 4]
          [0, 100, 255, 155, 0, 0, 0, 0, 0, 0, 0, 0, 0, 0, 0, 0]
          [1, 2, 3, 4, 5, 6, 7, 8]).getD i 0 =
        ([1, 2, 3, 4, 5, 6, 7, 8] : List Nat).getD (i - 8) 0) :=
  config_generate_local_ipv6_subnet_frame _ _ _ _ _ rfl rfl

/-- Claim C4: `config_item_int16_t` returns the parsed value for
well-formed base-10 input ("42" yields 42; an absent key with default
"-1" yields -1) and fails exactly when the resolved string is empty, has
no numeric content at all, contains trailing non-numeric characters, or
its value lies outside the signed 16-bit range [-32768, 32767] ("abc" and
"99999" both fail). -/
theorem config_item_int16_t_spec
    (root : List (String × String)) (item_name : String)
    (defaultvar : Option String) (ret_val : Int) (tmp : String)
    (hres : config_str root item_name defaultvar = some tmp) :
    ((config_item_int16_t root item_name defaultvar ret_val).1 = none ↔
      (tmp.toList = [] ∨ (strtol10 tmp.toList).2 = 0 ∨
        (strtol10 tmp.toList).2 < tmp.toList.length ∨
        (strtol10 tmp.toList).1 > 32767 ∨ (strtol10 tmp.toList).1 < -32768)) ∧
    ((config_item_int16_t [("mtu", "42")] "mtu" (some "-1") 0).1 = some 42) ∧
    ((config_item_int16_t [] "mtu" (some "-1") 0).1 = some (-1)) ∧
    ((config_item_int16_t [("mtu", "abc")] "mtu" (some "-1") 0).1 = none) ∧
    ((config_item_int16_t [("mtu", "99999")] "mtu" (some "-1") 0).1 = none) := by
  refine ⟨?_, by decide, by decide, by decide, by decide⟩
  simp only [config_item_int16_t, hres]
  split_ifs with h1 h2 h3
  · simp only [true_iff]
    tauto
  · simp only [true_iff]
    tauto
  · simp only [true_iff]
    tauto
  · simp only [reduceCtorEq, false_iff]
    push_neg at h1 h2 h3 ⊢
    exact ⟨h1.2, h1.1, h2, h3.1, h3.2⟩

theorem config_item_int16_t_spec_witness :
    ((config_item_int16_t [("mtu", "42")] "mtu" (some "-1") 0).1 = none ↔
      (("42" : String).toList = [] ∨ (strtol10 ("42" : String).toList).2 = 0 ∨
        (strtol10 ("42" : String).toList).2 < ("42" : String).toList.length ∨
        (strtol10 ("42" : String).toList).1 > 32767 ∨
        (strtol10 ("42" : String).toList).1 < -32768)) ∧
    ((config_item_int16_t [("mtu", "42")] "mtu" (some "-1") 0).1 = some 42) ∧
    ((config_item_int16_t [] "mtu" (some "-1") 0).1 = some (-1)) ∧
    ((config_item_int16_t [("mtu", "abc")] "mtu" (some "-1") 0).1 = none) ∧
    ((config_item_int16_t [("mtu", "99999")] "mtu" (some "-1") 0).1 = none) :=
  config_item_int16_t_spec [("mtu", "42")] "mtu" (some "-1") 0 "42" (by decide)

/-- Claim C10: on every failure path of `config_item_int16_t` the output
cell `*ret_val_ptr` is left unwritten, still holding its previous value;
it is assigned only on the success path, immediately before the non-null
return, and then holds the value returned. -/
theorem config_item_int16_t_frame (root : List (String × String))
    (item_name : String) (defaultvar : Option String) (ret_val : Int) :
    ((config_item_int16_t root item_name defaultvar ret_val).1 = none →
      (config_item_int16_t root item_name defaultvar ret_val).2 = ret_val) ∧
    (∀ v, (config_item_int16_t root item_name defaultvar ret_val).1 = some v →
      (config_item_int16_t root item_name defaultvar ret_val).2 = v) := by
  cases hres : config_str root item_name defaultvar with
  | none => simp [config_item_int16_t, hres]
  | some tmp =>
    simp only [config_item_int16_t, hres]
    split_ifs with h1 h2 h3 <;> simp

theorem config_item_int16_t_frame_witness :
    ((config_item_int16_t [("mtu", "oops")] "mtu" (some "-1") 3).1 = none →
      (config_item_int16_t [("mtu", "oops")] "mtu" (some "-1") 3).2 = 3) ∧
    (∀ v, (config_item_int16_t [("mtu", "oops")] "mtu" (some "-1") 3).1 = some v →
      (config_item_int16_t [("mtu", "oops")] "mtu" (some "-1") 3).2 = v) :=
  config_item_int16_t_frame [("mtu", "oops")] "mtu" (some "-1") 3

theorem subnet_from_interface_plat (pton6 : String → Option (List Nat))
    (root : List (String × String)) (iface_ip : Option (List Nat))
    (rand : List Nat) (cfg : ClatConfig) :
    (subnet_from_interface pton6 root iface_ip rand cfg).2.plat_subnet =
      cfg.plat_subnet := by
  simp only [subnet_from_interface]
  repeat' split
  all_goals rfl

theorem read_config_finish_plat (pton6 : String → Option (List Nat))
    (tree : List (String × String)) (iface_ip : Option (List Nat))
    (rand : List Nat) (cfg : ClatConfig) (q : Bool) :
    (read_config_finish pton6 tree iface_ip rand cfg q).config.plat_subnet =
      cfg.plat_subnet := by
  have h := subnet_from_interface_plat pton6 tree iface_ip rand cfg
  simp only [read_config_finish]
  rcases hsi : subnet_from_interface pton6 tree iface_ip rand cfg with ⟨b, cfg6⟩
  rw [hsi] at h
  cases b <;> simpa using h

theorem read_config_finish_queried (pton6 : String → Option (List Nat))
    (tree : List (String × String)) (iface_ip : Option (List Nat))
    (rand : List Nat) (cfg : ClatConfig) (q : Bool) :
    (read_config_finish pton6 tree iface_ip rand cfg q).dns64_queried = q := by
  simp only [read_config_finish]
  rcases hsi : subnet_from_interface pton6 tree iface_ip rand cfg with ⟨b, cfg6⟩
  cases b <;> rfl

/-- Claim C9: `read_config` fails whenever the loaded configuration tree
has no child nodes (the file is missing, unreadable, or parses to an
empty tree), even though every recognized configuration key resolves to a
usable default on an empty tree. -/
theorem read_config_empty_tree
    (uplink_interface : String) (plat_prefix_arg : Option String)
    (pton4 pton6 : String → Option (List Nat)) (dns64_pfx : List Nat)
    (iface_ip : Option (List Nat)) (rand : List Nat) :
    (read_config [] uplink_interface plat_prefix_arg pton4 pton6 dns64_pfx
        iface_ip rand).ret = false ∧
    config_str [] "mtu" (some "-1") = some "-1" ∧
    config_str [] "ipv4mtu" (some "-1") = some "-1" ∧
    config_str [] "ipv4_local_subnet" (some DEFAULT_IPV4_LOCAL_SUBNET) =
      some DEFAULT_IPV4_LOCAL_SUBNET ∧
    config_str [] "plat_from_dns64" (some "yes") = some "yes" ∧
    config_str [] "plat_from_dns64_hostname"
        (some DEFAULT_DNS64_DETECTION_HOSTNAME) =
      some DEFAULT_DNS64_DETECTION_HOSTNAME ∧
    config_str [] "ipv6_host_id" (some "::") = some "::" :=
  ⟨rfl, rfl, rfl, rfl, rfl, rfl, rfl⟩

theorem read_config_empty_tree_witness :
    (read_config [] "rmnet0" none (fun _ => none) (fun _ => none) [] none
        []).ret = false ∧
    config_str [] "mtu" (some "-1") = some "-1" ∧
    config_str [] "ipv4mtu" (some "-1") = some "-1" ∧
    config_str [] "ipv4_local_subnet" (some DEFAULT_IPV4_LOCAL_SUBNET) =
      some DEFAULT_IPV4_LOCAL_SUBNET ∧
    config_str [] "plat_from_dns64" (some "yes") = some "yes" ∧
    config_str [] "plat_from_dns64_hostname"
        (some DEFAULT_DNS64_DETECTION_HOSTNAME) =
      some DEFAULT_DNS64_DETECTION_HOSTNAME ∧
    config_str [] "ipv6_host_id" (some "::") = some "::" :=
  read_config_empty_tree "rmnet0" none (fun _ => none) (fun _ => none) [] none []

/-- Claim C3: when the `plat_from_dns64` config item resolves to the
string "no" and no `plat_subnet` item is present (and no command-line
override was supplied, so the config branch is the one taken),
`read_config` fails and `dns64_detection` is never entered, so no DNS64
query is ever issued. -/
theorem read_config_static_missing_plat
    (tree : List (String × String)) (uplink_interface : String)
    (pton4 pton6 : String → Option (List Nat)) (dns64_pfx : List Nat)
    (iface_ip : Option (List Nat)) (rand : List Nat)
    (hno : tree.lookup "plat_from_dns64" = some "no")
    (hmiss : tree.lookup "plat_subnet" = none) :
    (read_config tree uplink_interface none pton4 pton6 dns64_pfx iface_ip
        rand).ret = false ∧
    (read_config tree uplink_interface none pton4 pton6 dns64_pfx iface_ip
        rand).dns64_queried = false := by
  suffices h : ∃ cfg, read_config tree uplink_interface none pton4 pton6
      dns64_pfx iface_ip rand = ⟨false, cfg, false⟩ by
    obtain ⟨cfg, hcfg⟩ := h
    rw [hcfg]
    exact ⟨rfl, rfl⟩
  simp only [read_config, config_item_str, config_str, config_item_ip6,
    hno, hmiss]
  split
  · exact ⟨_, rfl⟩
  split
  · exact ⟨_, rfl⟩
  split
  · exact ⟨_, rfl⟩
  split
  · exact ⟨_, rfl⟩
  exact ⟨_, rfl⟩

theorem read_config_static_missing_plat_witness :
    (read_config [("plat_from_dns64", "no")] "rmnet0" none (fun _ => none)
        (fun _ => none) [] none []).ret = false ∧
    (read_config [("plat_from_dns64", "no")] "rmnet0" none (fun _ => none)
        (fun _ => none) [] none []).dns64_queried = false :=
  read_config_static_missing_plat [("plat_from_dns64", "no")] "rmnet0"
    (fun _ => none) (fun _ => none) [] none [] (by decide) (by decide)

/-- Claim C7: if a PLAT prefix override string is supplied to
`read_config`, it is parsed as an IPv6 address into `plat_subnet`, no
DNS64 discovery runs, and the config items `plat_from_dns64`,
`plat_subnet` and `plat_from_dns64_hostname` are never consulted (the
result depends on the tree only through its emptiness and the four other
recognized keys); if the override fails to parse as IPv6, `read_config`
returns failure. -/
theorem read_config_override (uplink_interface pp : String)
    (pton4 pton6 : String → Option (List Nat)) (dns64_pfx : List Nat)
    (iface_ip : Option (List Nat)) (rand : List Nat) :
    (∀ tree, (read_config tree uplink_interface (some pp) pton4 pton6
      dns64_pfx iface_ip rand).dns64_queried = false) ∧
    (pton6 pp = none → ∀ tree,
      (read_config tree uplink_interface (some pp) pton4 pton6 dns64_pfx
        iface_ip rand).ret = false) ∧
    (∀ ps, pton6 pp = some ps → ∀ tree,
      (read_config tree uplink_interface (some pp) pton4 pton6 dns64_pfx
          iface_ip rand).config.plat_subnet = ps ∨
        (read_config tree uplink_interface (some pp) pton4 pton6 dns64_pfx
          iface_ip rand).ret = false) ∧
    (∀ t1 t2 : List (String × String), t1.isEmpty = t2.isEmpty →
      t1.lookup "mtu" = t2.lookup "mtu" →
      t1.lookup "ipv4mtu" = t2.lookup "ipv4mtu" →
      t1.lookup "ipv4_local_subnet" = t2.lookup "ipv4_local_subnet" →
      t1.lookup "ipv6_host_id" = t2.lookup "ipv6_host_id" →
      read_config t1 uplink_interface (some pp) pton4 pton6 dns64_pfx
          iface_ip rand =
        read_config t2 uplink_interface (some pp) pton4 pton6 dns64_pfx
          iface_ip rand) := by
  refine ⟨?_, ?_, ?_, ?_⟩
  · intro tree
    simp only [read_config]
    split
    · rfl
    split
    · rfl
    split
    · rfl
    split
    · rfl
    split
    · rfl
    · exact read_config_finish_queried _ _ _ _ _ _
  · intro h tree
    simp only [read_config, h]
    split
    · rfl
    split
    · rfl
    split
    · rfl
    split
    · rfl
    rfl
  · intro ps hps tree
    simp only [read_config, hps]
    split
    · exact Or.inr rfl
    split
    · exact Or.inr rfl
    split
    · exact Or.inr rfl
    split
    · exact Or.inr rfl
    exact Or.inl (by rw [read_config_finish_plat])
  · intro t1 t2 h0 h1 h2 h3 h4
    have e1 : ∀ r, config_item_int16_t t1 "mtu" (some "-1") r =
        config_item_int16_t t2 "mtu" (some "-1") r := by
      intro r
      simp only [config_item_int16_t, config_str, h1]
    have e2 : ∀ r, config_item_int16_t t1 "ipv4mtu" (some "-1") r =
        config_item_int16_t t2 "ipv4mtu" (some "-1") r := by
      intro r
      simp only [config_item_int16_t, config_str, h2]
    have e3 : config_item_ip pton4 t1 "ipv4_local_subnet"
        (some DEFAULT_IPV4_LOCAL_SUBNET) =
        config_item_ip pton4 t2 "ipv4_local_subnet"
          (some DEFAULT_IPV4_LOCAL_SUBNET) := by
      simp only [config_item_ip, config_str, h3]
    have e4 : ∀ ip rd cfg, subnet_from_interface pton6 t1 ip rd cfg =
        subnet_from_interface pton6 t2 ip rd cfg := by
      intro ip rd cfg
      simp only [subnet_from_interface, config_item_ip6, config_str, h4]
    have e5 : ∀ cfg q, read_config_finish pton6 t1 iface_ip rand cfg q =
        read_config_finish pton6 t2 iface_ip rand cfg q := by
      intro cfg q
      simp only [read_config_finish, e4]
    simp only [read_config, h0, e1, e2, e3, e5]

theorem read_config_override_witness :
    (∀ tree, (read_config tree "rmnet0" (some "p") (fun _ => none)
      (fun _ => some [1]) [] none []).dns64_queried = false) ∧
    ((fun _ => some [1] : String → Option (List Nat)) "p" = none → ∀ tree,
      (read_config tree "rmnet0" (some "p") (fun _ => none)
        (fun _ => some [1]) [] none []).ret = false) ∧
    (∀ ps, (fun _ => some [1] : String → Option (List Nat)) "p" = some ps →
      ∀ tree,
      (read_config tree "rmnet0" (some "p") (fun _ => none)
          (fun _ => some [1]) [] none []).config.plat_subnet = ps ∨
        (read_config tree "rmnet0" (some "p") (fun _ => none)
          (fun _ => some [1]) [] none []).ret = false) ∧
    (∀ t1 t2 : List (String × String), t1.isEmpty = t2.isEmpty →
      t1.lookup "mtu" = t2.lookup "mtu" →
      t1.lookup "ipv4mtu" = t2.lookup "ipv4mtu" →
      t1.lookup "ipv4_local_subnet" = t2.lookup "ipv4_local_subnet" →
      t1.lookup "ipv6_host_id" = t2.lookup "ipv6_host_id" →
      read_config t1 "rmnet0" (some "p") (fun _ => none) (fun _ => some [1])
          [] none [] =
        read_config t2 "rmnet0" (some "p") (fun _ => none) (fun _ => some [1])
          [] none []) :=
  read_config_override "rmnet0" "p" (fun _ => none) (fun _ => some [1]) []
    none []
